import Mathlib

/-!
# Verification of the Python sandbox wrapper

A shallow embedding of `devtoolkit/src/python-runtime/sandbox_wrapper.py`
(the capability-restricted execution sandbox) together with theorems
settling the specification claims about it.

Conventions of the embedding:
* Python strings are Lean `String`s; character-level operations are
  performed on the underlying `List Char` with structural recursion so
  that every definition is executable and kernel-reducible.
* `os.path.abspath` is modelled for POSIX paths: join with the current
  working directory when the path is relative, then normalize (collapse
  separator runs, drop `.` segments, resolve `..`, drop trailing
  separators).  The current working directory is threaded explicitly and
  is assumed to be an absolute path.
* Exceptions become `Except SecurityError`; functions that Python merely
  calls through (the saved originals) become tagged result values.
-/

namespace SandboxWrapper

/-- Python `str.startswith` / `in` on a prefix: `a` is a string prefix of `s`. -/
def strStartsWith (s a : String) : Bool :=
  a.data.isPrefixOf s.data

/-- Python `char in mode`: membership of a character in a string. -/
def strContainsChar (s : String) (c : Char) : Bool :=
  s.data.contains c

/-- Python `str.split(sep)` on the character level: splitting `[]` yields
one empty component, and every occurrence of `sep` starts a new component. -/
def splitChar (sep : Char) : List Char → List (List Char)
  | [] => [[]]
  | c :: rest =>
    if c = sep then
      [] :: splitChar sep rest
    else
      match splitChar sep rest with
      | [] => [[c]]
      | s :: ss => (c :: s) :: ss

/-- `posixpath.normpath` restricted to absolute inputs: split on `/`,
drop empty and `.` components, resolve `..` against the accumulated
prefix (never above the root), and re-join with a leading `/`. -/
def normpathAbs (p : String) : String :=
  let comps := (splitChar '/' p.data).filter (fun c => c ≠ [] ∧ c ≠ ['.'])
  let resolved : List (List Char) :=
    comps.foldl (fun acc c => if c = ['.', '.'] then acc.dropLast else acc ++ [c]) []
  ⟨'/' :: List.intercalate ['/'] resolved⟩

/-- `os.path.abspath` for POSIX: make the path absolute against `cwd`
(assumed absolute), then normalize. -/
def abspath (cwd p : String) : String :=
  normpathAbs (if strStartsWith p "/" then p else cwd ++ "/" ++ p)

/-- The `SecurityError` exception raised on a capability violation. -/
structure SecurityError where
  msg : String
deriving DecidableEq

/-! ## RestrictedImportHook -/

/-- Outcome of a call to `RestrictedImportHook.secure_import`: either
the import is blocked with a `SecurityError`, or it proceeds to the
saved original `__import__`. -/
inductive ImportOutcome where
  | blocked (msg : String)
  | proceeds (name : String)
deriving DecidableEq

/-- The fixed deny-list `dangerous_modules` of `secure_import`. -/
def dangerous_modules : List String :=
  ["subprocess", "os.system", "shutil.rmtree", "pty",
   "socket", "smtplib", "ftplib"]

/-- `base_module = name.split('.')[0]`. -/
def module_base (name : String) : String :=
  ⟨(splitChar '.' name.data).headD []⟩

/-- `RestrictedImportHook.secure_import`: first the allow-list check on the
base module and the full dotted name, then the deny-list check
`any(name.startswith(dangerous) for dangerous in dangerous_modules)`. -/
def secure_import (allowed_imports : List String) (name : String) : ImportOutcome :=
  if ¬ (allowed_imports.contains (module_base name) ∨ allowed_imports.contains name) then
    .blocked ("Import of '" ++ name ++ "' is not allowed")
  else if dangerous_modules.any (fun dangerous => strStartsWith name dangerous) then
    .blocked ("Import of '" ++ name ++ "' is not allowed for security reasons")
  else
    .proceeds name

/-! ## RestrictedFileSystem -/

/-- `RestrictedFileSystem` as constructed by `__init__`: the path lists are
already passed through `os.path.abspath` (see `mkRestrictedFileSystem`). -/
structure RestrictedFileSystem where
  read_paths : List String
  write_paths : List String
  allow_delete : Bool
deriving DecidableEq

/-- `RestrictedFileSystem.__init__`: absolutize every entry of both path
lists against the current working directory. -/
def mkRestrictedFileSystem (cwd : String) (read_paths write_paths : List String)
    (allow_delete : Bool) : RestrictedFileSystem :=
  ⟨read_paths.map (abspath cwd), write_paths.map (abspath cwd), allow_delete⟩

/-- `RestrictedFileSystem.is_path_allowed`: absolutize the file path, then
scan `write_paths` (in write mode) or `read_paths` (otherwise) with
`filepath.startswith(allowed_path)`; the loops returning `True` on the
first hit and `False` after exhaustion are `List.any`. -/
def is_path_allowed (fs : RestrictedFileSystem) (cwd filepath : String)
    (write_mode : Bool) : Bool :=
  if write_mode then
    fs.write_paths.any (fun allowed_path => strStartsWith (abspath cwd filepath) allowed_path)
  else
    fs.read_paths.any (fun allowed_path => strStartsWith (abspath cwd filepath) allowed_path)

/-- A successful guarded open: the call handed to the saved original
`open` with the same file and mode. -/
structure OpenedFile where
  file : String
  mode : String
deriving DecidableEq

/-- `secure_open`'s write classification:
`any(char in mode for char in 'wax+')`. -/
def open_write_mode (mode : String) : Bool :=
  ['w', 'a', 'x', '+'].any (fun char => strContainsChar mode char)

/-- `RestrictedFileSystem.secure_open`: classify the mode, check
`is_path_allowed`, raise `SecurityError` on denial, otherwise call the
original `open`. -/
def secure_open (fs : RestrictedFileSystem) (cwd file mode : String) :
    Except SecurityError OpenedFile :=
  if ¬ is_path_allowed fs cwd file (open_write_mode mode) then
    .error ⟨"Access to file '" ++ file ++ "' " ++
      (if open_write_mode mode then "for writing " else "") ++ "is not allowed"⟩
  else
    .ok ⟨file, mode⟩

/-- `RestrictedFileSystem.secure_path_open`: like `secure_open`, on the
string form of the `Path` receiver. -/
def secure_path_open (fs : RestrictedFileSystem) (cwd path_self mode : String) :
    Except SecurityError OpenedFile :=
  if ¬ is_path_allowed fs cwd path_self (open_write_mode mode) then
    .error ⟨"Access to file '" ++ path_self ++ "' " ++
      (if open_write_mode mode then "for writing " else "") ++ "is not allowed"⟩
  else
    .ok ⟨path_self, mode⟩

/-- `RestrictedFileSystem.block_remove`: unconditionally raises. -/
def block_remove (_path : String) : Except SecurityError Unit :=
  .error ⟨"File deletion operations are not allowed"⟩

/-! ## RestrictedNetwork -/

/-- `RestrictedNetwork.__init__`. -/
structure RestrictedNetwork where
  allowed_hosts : List String
  allowed_ports : List Nat
  allow_localhost : Bool
deriving DecidableEq

/-- `RestrictedNetwork.is_host_allowed`: wildcard entry, then the
localhost aliases `localhost` and `127.0.0.1`, then plain membership. -/
def is_host_allowed (net : RestrictedNetwork) (host : String) : Bool :=
  if net.allowed_hosts.contains "*" then
    true
  else if net.allow_localhost ∧ (host = "localhost" ∨ host = "127.0.0.1") then
    true
  else
    net.allowed_hosts.contains host

/-- `RestrictedNetwork.is_port_allowed`: an empty `allowed_ports` list
denies every port; otherwise membership. -/
def is_port_allowed (net : RestrictedNetwork) (port : Nat) : Bool :=
  if net.allowed_ports.isEmpty then false
  else net.allowed_ports.contains port

/-- A successful `socket.socket` call forwarded to the saved original. -/
inductive SocketResult where
  | socketCreated
deriving DecidableEq

/-- `RestrictedNetwork.secure_socket`: the only check performed is
`if not self.allowed_hosts: raise SecurityError(...)`; no host or port is
available at socket-creation time. -/
def secure_socket (net : RestrictedNetwork) : Except SecurityError SocketResult :=
  if net.allowed_hosts.isEmpty then
    .error ⟨"Network access is not allowed"⟩
  else
    .ok .socketCreated

/-- A successful `urlopen` forwarded to the saved original. -/
structure UrlopenResult where
  host : String
  port : Nat
deriving DecidableEq

/-- The effective port of `secure_urlopen`:
`parsed_url.port or (443 if parsed_url.scheme == 'https' else 80)`.
Python `or` treats port `0` and `None` alike as absent. -/
def urlopen_port (scheme : String) (parsedPort : Option Nat) : Nat :=
  match parsedPort with
  | some p => if p = 0 then (if scheme = "https" then 443 else 80) else p
  | none => if scheme = "https" then 443 else 80

/-- `RestrictedNetwork.secure_urlopen`, over a URL already split by
`urlparse` into scheme, host (the netloc up to the first colon) and
optional numeric port: host check, then port check, then the original
`urlopen`. -/
def secure_urlopen (net : RestrictedNetwork) (scheme host : String)
    (parsedPort : Option Nat) : Except SecurityError UrlopenResult :=
  if ¬ is_host_allowed net host then
    .error ⟨"Access to host '" ++ host ++ "' is not allowed"⟩
  else if ¬ is_port_allowed net (urlopen_port scheme parsedPort) then
    .error ⟨"Access to port is not allowed"⟩
  else
    .ok ⟨host, urlopen_port scheme parsedPort⟩

/-- A successful `HTTPConnection.__init__` forwarded to the original. -/
structure HttpConnectResult where
  host : String
  port : Nat
deriving DecidableEq

/-- `secure_http_connect`'s effective port: `port = port or 80` (Python
`or` treats `None` and `0` alike as absent). -/
def http_connect_port (parsedPort : Option Nat) : Nat :=
  match parsedPort with
  | some p => if p = 0 then 80 else p
  | none => 80

/-- `RestrictedNetwork.secure_http_connect`: resolve the port, then the
same two checks as `secure_urlopen`. -/
def secure_http_connect (net : RestrictedNetwork) (host : String)
    (parsedPort : Option Nat) : Except SecurityError HttpConnectResult :=
  if ¬ is_host_allowed net host then
    .error ⟨"Access to host '" ++ host ++ "' is not allowed"⟩
  else if ¬ is_port_allowed net (http_connect_port parsedPort) then
    .error ⟨"Access to port is not allowed"⟩
  else
    .ok ⟨host, http_connect_port parsedPort⟩

/-! ## Ambient interception state

The guards mutate process-wide interception points (`builtins.__import__`,
`builtins.open`, `Path.open`, `os.remove`, `os.unlink`, `socket.socket`,
`urllib.request.urlopen`, `http.client.HTTPConnection.__init__`,
`os.environ`).  Each point is modelled as a slot recording which function
value is currently installed; a patched slot records the parameters of the
guard whose bound method was installed, and — where the closure refers to
a saved original — the value that was saved. -/

/-- The value installed at `builtins.__import__`. -/
inductive ImportSlot where
  | original
  | secure_import_fn (allowed_imports : List String) (saved : ImportSlot)
deriving DecidableEq

/-- The value installed at `builtins.open`. -/
inductive OpenSlot where
  | original
  | secure_open_fn (read_paths write_paths : List String) (allow_delete : Bool)
      (saved : OpenSlot)
deriving DecidableEq

/-- The value installed at `Path.open`. -/
inductive PathOpenSlot where
  | original
  | secure_path_open_fn (read_paths write_paths : List String) (allow_delete : Bool)
deriving DecidableEq

/-- The value installed at `os.remove` / `os.unlink`. -/
inductive RemoveSlot where
  | original
  | block_remove_fn
deriving DecidableEq

/-- The value installed at `socket.socket`. -/
inductive SocketSlot where
  | original
  | secure_socket_fn (allowed_hosts : List String) (allowed_ports : List Nat)
      (allow_localhost : Bool) (saved : SocketSlot)
deriving DecidableEq

/-- The value installed at `urllib.request.urlopen`. -/
inductive UrlopenSlot where
  | original
  | secure_urlopen_fn (allowed_hosts : List String) (allowed_ports : List Nat)
      (allow_localhost : Bool) (saved : UrlopenSlot)
deriving DecidableEq

/-- The value installed at `http.client.HTTPConnection.__init__`. -/
inductive HttpInitSlot where
  | original
  | secure_http_connect_fn (allowed_hosts : List String) (allowed_ports : List Nat)
      (allow_localhost : Bool) (saved : HttpInitSlot)
deriving DecidableEq

/-- `os.environ` as a mapping from variable names to values. -/
def EnvMap : Type := String → Option String

/-- Python `dict.update`: every key of `m` takes `m`'s value, every other
key keeps `base`'s value. -/
def dict_update (base m : EnvMap) : EnvMap :=
  fun k => match m k with
    | some v => some v
    | none => base k

/-- Python `dict.clear` on `os.environ`: the empty mapping. -/
def dict_clear : EnvMap := fun _ => none

/-- The full process-wide ambient state the guards can touch. -/
structure Ambient where
  import_fn : ImportSlot
  open_fn : OpenSlot
  path_open_fn : PathOpenSlot
  os_remove : RemoveSlot
  os_unlink : RemoveSlot
  socket_fn : SocketSlot
  urlopen_fn : UrlopenSlot
  http_init_fn : HttpInitSlot
  environ : EnvMap

/-- An ambient state with nothing patched. -/
def initialAmbient (env : EnvMap) : Ambient :=
  ⟨.original, .original, .original, .original, .original,
   .original, .original, .original, env⟩

/-! ## Guard lifecycles (`__init__` / `__enter__` / `__exit__`) -/

/-- `RestrictedImportHook`: `__init__` stores the allow-list and captures
`builtins.__import__` as `original_import`. -/
structure RestrictedImportHook where
  allowed_imports : List String
  original_import : ImportSlot
deriving DecidableEq

/-- `RestrictedImportHook.__init__`. -/
def mkRestrictedImportHook (allowed_imports : List String) (a : Ambient) :
    RestrictedImportHook :=
  ⟨allowed_imports, a.import_fn⟩

/-- `RestrictedImportHook.__enter__`: install `secure_import`. -/
def importHookEnter (h : RestrictedImportHook) (a : Ambient) : Ambient :=
  { a with import_fn := .secure_import_fn h.allowed_imports h.original_import }

/-- `RestrictedImportHook.__exit__`: restore the saved `__import__`. -/
def importHookExit (h : RestrictedImportHook) (a : Ambient) : Ambient :=
  { a with import_fn := h.original_import }

/-- `RestrictedFileSystem.__enter__`: install `secure_open` at
`builtins.open`, `secure_path_open` at `Path.open`, and — only when
`allow_delete` is false — `block_remove` at `os.remove` and `os.unlink`. -/
def fsGuardEnter (fs : RestrictedFileSystem) (orig : OpenSlot) (a : Ambient) : Ambient :=
  if fs.allow_delete then
    { a with
      open_fn := .secure_open_fn fs.read_paths fs.write_paths fs.allow_delete orig,
      path_open_fn := .secure_path_open_fn fs.read_paths fs.write_paths fs.allow_delete }
  else
    { a with
      open_fn := .secure_open_fn fs.read_paths fs.write_paths fs.allow_delete orig,
      path_open_fn := .secure_path_open_fn fs.read_paths fs.write_paths fs.allow_delete,
      os_remove := .block_remove_fn,
      os_unlink := .block_remove_fn }

/-- `RestrictedFileSystem.__exit__`: restore `builtins.open` only; the
`Path.open`, `os.remove` and `os.unlink` patches are left in place. -/
def fsGuardExit (orig : OpenSlot) (a : Ambient) : Ambient :=
  { a with open_fn := orig }

/-- Calling whatever is installed at `os.remove` / `os.unlink`: the
original deletes and returns; `block_remove` raises. -/
def call_remove_slot : RemoveSlot → String → Except SecurityError Unit
  | .block_remove_fn, path => block_remove path
  | .original, _ => .ok ()

/-- The originals `RestrictedNetwork.__enter__` saves on the instance:
`original_socket`, `original_urlopen`, `original_http_connect`. -/
structure NetworkSaved where
  original_socket : SocketSlot
  original_urlopen : UrlopenSlot
  original_http_connect : HttpInitSlot
deriving DecidableEq

/-- `RestrictedNetwork.__enter__`: save and patch `socket.socket`,
`urllib.request.urlopen` and `HTTPConnection.__init__` (the imports are
assumed to succeed, as they do on a standard runtime). -/
def networkGuardEnter (net : RestrictedNetwork) (a : Ambient) : NetworkSaved × Ambient :=
  (⟨a.socket_fn, a.urlopen_fn, a.http_init_fn⟩,
   { a with
     socket_fn := .secure_socket_fn net.allowed_hosts net.allowed_ports
       net.allow_localhost a.socket_fn,
     urlopen_fn := .secure_urlopen_fn net.allowed_hosts net.allowed_ports
       net.allow_localhost a.urlopen_fn,
     http_init_fn := .secure_http_connect_fn net.allowed_hosts net.allowed_ports
       net.allow_localhost a.http_init_fn })

/-- `RestrictedNetwork.__exit__`: restore `socket.socket` only; the
`urlopen` and `HTTPConnection.__init__` patches are left in place. -/
def networkGuardExit (st : NetworkSaved) (a : Ambient) : Ambient :=
  { a with socket_fn := st.original_socket }

/-- `RestrictedEnvironment.__init__`: the passthrough list is a fixed
constant. -/
structure RestrictedEnvironment where
  allow_access : Bool
  allowed_env_vars : List String
deriving DecidableEq

/-- `RestrictedEnvironment.__init__`. -/
def mkRestrictedEnvironment (allow_access : Bool) : RestrictedEnvironment :=
  ⟨allow_access, ["PATH", "PYTHONPATH", "LANG", "PYTEST_CURRENT_TEST", "PYTHONIOENCODING"]⟩

/-- The `original_environ` attribute, set by `__enter__` exactly when
`allow_access` is false. -/
structure EnvSaved where
  original_environ : Option EnvMap

/-- `RestrictedEnvironment.__enter__`: when access is denied, copy the
environment, then clear it and update it with the passthrough subset. -/
def envGuardEnter (g : RestrictedEnvironment) (a : Ambient) : EnvSaved × Ambient :=
  if g.allow_access then
    (⟨none⟩, a)
  else
    let restricted_env : EnvMap :=
      fun k => if g.allowed_env_vars.contains k then a.environ k else none
    (⟨some a.environ⟩, { a with environ := dict_update dict_clear restricted_env })

/-- `RestrictedEnvironment.__exit__`: when access was denied, clear the
environment and update it with the saved copy.  (`original_environ` is
`some _` for every state produced by `envGuardEnter` with
`allow_access = false`.) -/
def envGuardExit (g : RestrictedEnvironment) (st : EnvSaved) (a : Ambient) : Ambient :=
  if g.allow_access then a
  else
    match st.original_environ with
    | some m => { a with environ := dict_update dict_clear m }
    | none => a

/-! ## apply_security_restrictions and the guard stack -/

/-- A security profile, flattening the nested profile dictionary of the
source (`allowed_imports`, `filesystem.*`, `network.*`,
`environment.allow_access`). -/
structure SecurityProfile where
  allowed_imports : List String
  read_paths : List String
  write_paths : List String
  allow_delete : Bool
  allowed_hosts : List String
  allowed_ports : List Nat
  allow_localhost : Bool
  env_allow_access : Bool
deriving DecidableEq

/-- `DEFAULT_SECURITY_PROFILE`. -/
def DEFAULT_SECURITY_PROFILE : SecurityProfile :=
  ⟨["os.path", "sys", "typing", "json", "datetime", "math"],
   [], [], false, [], [], false, false⟩

/-- The list built by `apply_security_restrictions`, in construction
order: import hook, filesystem, network, environment.  The import hook
and the filesystem guard capture ambient state at construction time. -/
structure Restrictions where
  import_hook : RestrictedImportHook
  fs_restrictor : RestrictedFileSystem
  network_restrictor : RestrictedNetwork
  env_restrictor : RestrictedEnvironment
deriving DecidableEq

/-- `apply_security_restrictions`. -/
def apply_security_restrictions (p : SecurityProfile) (cwd : String) (a : Ambient) :
    Restrictions :=
  ⟨mkRestrictedImportHook p.allowed_imports a,
   mkRestrictedFileSystem cwd p.read_paths p.write_paths p.allow_delete,
   ⟨p.allowed_hosts, p.allowed_ports, p.allow_localhost⟩,
   mkRestrictedEnvironment p.env_allow_access⟩

/-- `for restriction in restrictions: restriction.__enter__()`, threading
the per-guard saved state that `__enter__` creates.  The filesystem
guard's `original_open` was captured at construction, i.e. from the
pre-activation ambient state `a`. -/
def enter_all (r : Restrictions) (a : Ambient) : NetworkSaved × EnvSaved × Ambient :=
  let a1 := importHookEnter r.import_hook a
  let a2 := fsGuardEnter r.fs_restrictor a.open_fn a1
  let (nst, a3) := networkGuardEnter r.network_restrictor a2
  let (est, a4) := envGuardEnter r.env_restrictor a3
  (nst, est, a4)

/-- `for restriction in reversed(restrictions): restriction.__exit__(...)`:
environment, network, filesystem, import. -/
def exit_all_reversed (r : Restrictions) (origOpen : OpenSlot) (nst : NetworkSaved)
    (est : EnvSaved) (a : Ambient) : Ambient :=
  importHookExit r.import_hook
    (fsGuardExit origOpen
      (networkGuardExit nst
        (envGuardExit r.env_restrictor est a)))

/-- Activate the full guard stack on `a`, then immediately deactivate it
in reverse order. -/
def guard_stack_round_trip (p : SecurityProfile) (cwd : String) (a : Ambient) : Ambient :=
  let r := apply_security_restrictions p cwd a
  let (nst, est, a4) := enter_all r a
  exit_all_reversed r a.open_fn nst est a4

/-! ## run_sandboxed_script -/

/-- The four guards, in the order `apply_security_restrictions` appends
them to the `restrictions` list. -/
inductive GuardId where
  | imports
  | filesystem
  | network
  | environment
deriving DecidableEq

/-- Construction/activation order of the `restrictions` list. -/
def restriction_order : List GuardId :=
  [.imports, .filesystem, .network, .environment]

/-- Observable events of one `run_sandboxed_script` call. -/
inductive RunEvent where
  | enterGuard (g : GuardId)
  | exitGuard (g : GuardId)
  | exec_script
deriving DecidableEq

/-- Behaviour of the `exec` of the script body, abstracted: it returns,
raises a `SecurityError` (a capability violation), or raises some other
exception. -/
inductive ScriptOutcome where
  | returns
  | raisesSecurity (msg : String)
  | raisesOther (msg : String)
deriving DecidableEq

/-- What `run_sandboxed_script` surfaces to its caller. -/
inductive RunResult where
  | sandbox_error (msg : String)
  | security_error (msg : String)
  | script_error (msg : String)
  | completed
deriving DecidableEq

/-- `run_sandboxed_script`: check existence (`SandboxException` before any
guard is built), build and activate the guards, read the script source
with the now-patched `builtins.open` (i.e. through
`fs_restrictor.secure_open` in mode `'r'`), `exec` it, and — in the
`finally` clause — deactivate every guard in reversed order on every path
that activated them, before the outcome propagates.  The returned trace
records activations, script execution and deactivations in order. -/
def run_sandboxed_script (p : SecurityProfile) (cwd script_path : String)
    (script_exists : Bool) (outcome : ScriptOutcome) : RunResult × List RunEvent :=
  if ¬ script_exists then
    (.sandbox_error ("Script not found: " ++ script_path), [])
  else
    let fs := mkRestrictedFileSystem cwd p.read_paths p.write_paths p.allow_delete
    let enterTrace := restriction_order.map RunEvent.enterGuard
    let exitTrace := restriction_order.reverse.map RunEvent.exitGuard
    match secure_open fs cwd script_path "r" with
    | .error e => (.security_error e.msg, enterTrace ++ exitTrace)
    | .ok _ =>
      match outcome with
      | .returns => (.completed, enterTrace ++ [RunEvent.exec_script] ++ exitTrace)
      | .raisesSecurity msg =>
          (.security_error msg, enterTrace ++ [RunEvent.exec_script] ++ exitTrace)
      | .raisesOther msg =>
          (.script_error msg, enterTrace ++ [RunEvent.exec_script] ++ exitTrace)

/-! ## Specification-side definitions

These definitions follow the wording of the specification (not the
source); they exist only to be compared against the source-derived
definitions above. -/

/-- From the spec: `path` is "a descendant of (or equal to)" the
canonicalized entry `a` — on canonical absolute paths, equality or having
`a` followed by a separator as a prefix. -/
def isDescendantOf (path a : String) : Bool :=
  path == a || strStartsWith path (a ++ "/")

/-- From the spec: the "recognized loopback aliases". -/
def spec_loopback_aliases : List String :=
  ["localhost", "127.0.0.1", "::1"]

/-- Whether an import outcome is a raised `SecurityError`. -/
def ImportOutcome.isBlocked : ImportOutcome → Bool
  | .blocked _ => true
  | .proceeds _ => false

end SandboxWrapper


/-!
# Theorems

Each claim of the specification is settled by one theorem below (plus a
counterexample theorem where the claim as stated fails on the code, and a
witness instantiating every theorem that carries a hypothesis).
-/

namespace SandboxWrapper

/-! ## Helper lemmas -/

/-- `strStartsWith` as a `List.IsPrefix` statement. -/
theorem strStartsWith_iff (s a : String) :
    strStartsWith s a = true ↔ a.data <+: s.data := by
  simp [strStartsWith, List.isPrefixOf_iff_prefix]

/-- Every string starts with itself. -/
theorem strStartsWith_self (s : String) : strStartsWith s s = true :=
  (strStartsWith_iff s s).mpr (List.prefix_refl _)

/-- A descendant (in the spec's sense) in particular has the ancestor as
a plain string prefix. -/
theorem strStartsWith_of_isDescendantOf (p a : String)
    (h : isDescendantOf p a = true) : strStartsWith p a = true := by
  rw [isDescendantOf, Bool.or_eq_true] at h
  rcases h with h1 | h2
  · have : p = a := by simpa using h1
    subst this
    exact strStartsWith_self p
  · rw [strStartsWith_iff] at h2 ⊢
    calc a.data <+: (a ++ "/").data := by
          rw [String.data_append]
          exact List.prefix_append _ _
      _ <+: p.data := h2

/-! ## C4: the dangerous-module deny-list cannot be overridden -/

/-- C4 (confirmed): for every module name on the fixed deny-list
`dangerous_modules`, `secure_import` raises a `SecurityError` no matter
which allow-list the profile supplies — in particular even when that very
name is explicitly allowed.  The deny-list check runs after the allow-list
check and `name.startswith(name)` always holds, so no configuration
reaches `proceeds`. -/
theorem dangerous_deny_list_not_overridable (allowed_imports : List String)
    (name : String) (h : name ∈ dangerous_modules) :
    (secure_import allowed_imports name).isBlocked = true := by
  have hself : dangerous_modules.any (fun dangerous => strStartsWith name dangerous) = true := by
    rw [List.any_eq_true]
    exact ⟨name, h, strStartsWith_self name⟩
  by_cases hc : (allowed_imports.contains (module_base name) = true ∨
      allowed_imports.contains name = true)
  · rw [secure_import, if_neg (not_not_intro hc), if_pos hself]
    rfl
  · rw [secure_import, if_pos hc]
    rfl

/-- Witness for C4: the profile explicitly allow-lists `subprocess`,
yet importing `subprocess` is still blocked. -/
theorem dangerous_deny_list_not_overridable_witness :
    "subprocess" ∈ dangerous_modules ∧
      (secure_import ["subprocess"] "subprocess").isBlocked = true :=
  ⟨by decide,
   dangerous_deny_list_not_overridable ["subprocess"] "subprocess" (by decide)⟩


/-! ## C6: is_host_allowed -/

/-- C6 counterexample: with `allow_localhost = true` and no explicit
hosts, the claim (which lists `::1` among the recognized loopback
aliases) demands that `::1` be allowed, but `is_host_allowed` rejects it:
the source only compares against `localhost` and `127.0.0.1`. -/
theorem is_host_allowed_v6_loopback_cex :
    is_host_allowed ⟨[], [], true⟩ "::1" = false ∧
      spec_loopback_aliases.contains "::1" = true := by
  constructor
  · rfl
  · decide

/-- C6 (corrected): `is_host_allowed host` is true iff the wildcard `*`
is present, or the host is a member of `allowed_hosts`, or
`allow_localhost` is true and the host is `localhost` or `127.0.0.1` —
`::1` is not a recognized alias. -/
theorem is_host_allowed_amended (hosts : List String) (ports : List Nat)
    (lh : Bool) (host : String) :
    is_host_allowed ⟨hosts, ports, lh⟩ host =
      (hosts.contains "*" || hosts.contains host ||
        (lh && (host == "localhost" || host == "127.0.0.1"))) := by
  cases h1 : hosts.contains "*" <;>
    cases h3 : hosts.contains host <;>
      cases lh <;>
        by_cases h4 : host = "localhost" <;>
          by_cases h5 : host = "127.0.0.1" <;>
            simp_all [is_host_allowed]

/-- Witness for `is_host_allowed_amended` at concrete inputs. -/
theorem is_host_allowed_amended_witness :
    is_host_allowed ⟨["example.com"], [], true⟩ "localhost" =
      ((["example.com"] : List String).contains "*" ||
        (["example.com"] : List String).contains "localhost" ||
        (true && ("localhost" == "localhost" || "localhost" == "127.0.0.1"))) :=
  is_host_allowed_amended ["example.com"] [] true "localhost"


/-! ## C5: network connection gating -/

/-- C5 counterexample: with `allowed_ports = []` every port is denied and
the wildcard allows the host, yet `socket.socket` creation still
succeeds — `secure_socket` checks only that `allowed_hosts` is nonempty
and consults neither the host nor the port check. -/
theorem secure_socket_ignores_ports_cex :
    secure_socket ⟨["*"], [], false⟩ = .ok .socketCreated ∧
      is_host_allowed ⟨["*"], [], false⟩ "example.com" = true ∧
      is_port_allowed ⟨["*"], [], false⟩ 80 = false := by
  refine ⟨rfl, by decide, by decide⟩

/-- C5 (corrected): `urlopen` and `HTTPConnection` attempts are permitted
exactly when both the host check and the port check pass (so
`allowed_ports = []` denies them even for a wildcard-allowed host, and
`allowed_hosts = []` leaves only loopback-alias hosts past the host
check); `socket.socket` creation, by contrast, performs no host or port
check and is denied exactly when `allowed_hosts` is empty. -/
theorem network_gating_amended :
    (∀ (net : RestrictedNetwork) (scheme host : String) (parsedPort : Option Nat),
        (secure_urlopen net scheme host parsedPort).isOk =
          (is_host_allowed net host &&
            is_port_allowed net (urlopen_port scheme parsedPort)))
    ∧ (∀ (net : RestrictedNetwork) (host : String) (parsedPort : Option Nat),
        (secure_http_connect net host parsedPort).isOk =
          (is_host_allowed net host &&
            is_port_allowed net (http_connect_port parsedPort)))
    ∧ (∀ net : RestrictedNetwork,
        (secure_socket net).isOk = !net.allowed_hosts.isEmpty) := by
  refine ⟨?_, ?_, ?_⟩
  · intro net scheme host parsedPort
    cases h1 : is_host_allowed net host <;>
      cases h2 : is_port_allowed net (urlopen_port scheme parsedPort) <;>
        simp [secure_urlopen, h1, h2, Except.isOk, Except.toBool]
  · intro net host parsedPort
    cases h1 : is_host_allowed net host <;>
      cases h2 : is_port_allowed net (http_connect_port parsedPort) <;>
        simp [secure_http_connect, h1, h2, Except.isOk, Except.toBool]
  · intro net
    cases h1 : net.allowed_hosts.isEmpty <;>
      simp [secure_socket, h1, Except.isOk, Except.toBool]

/-- Witness for `network_gating_amended` at concrete inputs. -/
theorem network_gating_amended_witness :
    (secure_urlopen ⟨["*"], [], false⟩ "https" "example.com" none).isOk =
      (is_host_allowed ⟨["*"], [], false⟩ "example.com" &&
        is_port_allowed ⟨["*"], [], false⟩ (urlopen_port "https" none)) :=
  network_gating_amended.1 ⟨["*"], [], false⟩ "https" "example.com" none


/-! ## C2: deletion gating -/

/-- C2 counterexample: take `allow_delete = true` and empty `write_paths`
and a path `/tmp/x` that is therefore not write-allowed.  The claim says
the delete must fail; but with `allow_delete = true` the guard never
patches `os.remove`, so after activation the delete goes straight to the
original `os.remove` and succeeds without any write-path check. -/
theorem delete_unchecked_when_allow_delete_cex :
    call_remove_slot
        ((fsGuardEnter (mkRestrictedFileSystem "/" [] [] true) .original
            (initialAmbient (fun _ => none))).os_remove) "/tmp/x" = .ok () ∧
      is_path_allowed (mkRestrictedFileSystem "/" [] [] true) "/" "/tmp/x" true = false := by
  exact ⟨rfl, by decide⟩

/-- C2 (corrected): a delete through the activated filesystem guard
raises a `SecurityError` exactly when `allow_delete` is false — in that
case for every path, including paths in `write_paths`; when
`allow_delete` is true, `os.remove` and `os.unlink` are left unpatched,
so no write-path check is ever applied and the delete proceeds as before
activation, for every path. -/
theorem delete_gating_amended (cwd : String) (rp wp : List String) (del : Bool)
    (path : String) (a : Ambient) :
    (call_remove_slot
        ((fsGuardEnter (mkRestrictedFileSystem cwd rp wp del) a.open_fn a).os_remove) path =
      if del then call_remove_slot a.os_remove path
      else .error ⟨"File deletion operations are not allowed"⟩)
    ∧ (call_remove_slot
        ((fsGuardEnter (mkRestrictedFileSystem cwd rp wp del) a.open_fn a).os_unlink) path =
      if del then call_remove_slot a.os_unlink path
      else .error ⟨"File deletion operations are not allowed"⟩) := by
  cases del <;>
    simp [fsGuardEnter, mkRestrictedFileSystem, call_remove_slot, block_remove]

/-- Witness for `delete_gating_amended` at concrete inputs: with
`allow_delete = false`, a delete on a path that is in `write_paths` is
still rejected. -/
theorem delete_gating_amended_witness :
    call_remove_slot
        ((fsGuardEnter (mkRestrictedFileSystem "/" [] ["/tmp"] false) .original
            (initialAmbient (fun _ => none))).os_remove) "/tmp/x" =
      .error ⟨"File deletion operations are not allowed"⟩ := by
  have h := (delete_gating_amended "/" [] ["/tmp"] false "/tmp/x"
    (initialAmbient (fun _ => none))).1
  simpa using h


/-! ## C3: is_path_allowed -/

/-- C3 counterexample: with `write_paths = ["/foo"]`, the non-descendant
path `/foobar` passes the write check, because the comparison is plain
`str.startswith` on the canonicalized strings rather than a
descendant-or-equal test. -/
theorem path_check_not_descendant_cex :
    is_path_allowed (mkRestrictedFileSystem "/" [] ["/foo"] false) "/" "/foobar" true = true ∧
      isDescendantOf (abspath "/" "/foobar") (abspath "/" "/foo") = false := by
  decide

/-- C3 (corrected): `is_path_allowed` returns true iff the absolutized,
normalized path has the absolutized form of some entry of `write_paths`
(write mode) respectively `read_paths` (read mode) as a plain string
prefix.  Every descendant of an entry passes in particular, but so do
prefix-sharing siblings such as `/foobar` against `/foo`. -/
theorem is_path_allowed_amended (cwd : String) (rp wp : List String) (del : Bool)
    (p : String) (wm : Bool) :
    (is_path_allowed (mkRestrictedFileSystem cwd rp wp del) cwd p wm = true ↔
      ∃ entry ∈ (if wm then wp else rp),
        strStartsWith (abspath cwd p) (abspath cwd entry) = true)
    ∧ ((∃ entry ∈ (if wm then wp else rp),
        isDescendantOf (abspath cwd p) (abspath cwd entry) = true) →
      is_path_allowed (mkRestrictedFileSystem cwd rp wp del) cwd p wm = true) := by
  have hiff : is_path_allowed (mkRestrictedFileSystem cwd rp wp del) cwd p wm = true ↔
      ∃ entry ∈ (if wm then wp else rp),
        strStartsWith (abspath cwd p) (abspath cwd entry) = true := by
    cases wm <;>
      simp [is_path_allowed, mkRestrictedFileSystem, List.any_map, List.any_eq_true,
        Function.comp]
  refine ⟨hiff, ?_⟩
  rintro ⟨entry, he, hd⟩
  exact hiff.mpr ⟨entry, he, strStartsWith_of_isDescendantOf _ _ hd⟩

/-- Witness for `is_path_allowed_amended`: a genuine descendant of a
`write_paths` entry passes the write check. -/
theorem is_path_allowed_amended_witness :
    is_path_allowed (mkRestrictedFileSystem "/" [] ["/foo"] false) "/" "/foo/sub" true = true :=
  (is_path_allowed_amended "/" [] ["/foo"] false "/foo/sub" true).2
    ⟨"/foo", by decide, by decide⟩


/-! ## C10: write classification of the guarded open -/

/-- C10 (confirmed): a mode string is classified as a write iff it
contains one of `w`, `a`, `x`, `+`; a write-classified open is checked
against `write_paths` only — the `read_paths` list is irrelevant to it —
so `r+` on a path covered only by `write_paths` succeeds while `r` on the
same path is denied. -/
theorem open_write_classification :
    (∀ mode : String, open_write_mode mode =
      (strContainsChar mode 'w' || strContainsChar mode 'a' ||
        strContainsChar mode 'x' || strContainsChar mode '+'))
    ∧ (∀ (cwd : String) (rp rpAlt wp : List String) (del : Bool) (file mode : String),
        open_write_mode mode = true →
        secure_open (mkRestrictedFileSystem cwd rp wp del) cwd file mode =
          secure_open (mkRestrictedFileSystem cwd rpAlt wp del) cwd file mode)
    ∧ secure_open (mkRestrictedFileSystem "/" [] ["/data"] false) "/" "/data/f.txt" "r+" =
        .ok ⟨"/data/f.txt", "r+"⟩
    ∧ ∃ e, secure_open (mkRestrictedFileSystem "/" [] ["/data"] false) "/" "/data/f.txt" "r" =
        .error e := by
  refine ⟨?_, ?_, rfl, ⟨_, rfl⟩⟩
  · intro mode
    simp [open_write_mode, Bool.or_assoc]
  · intro cwd rp rpAlt wp del file mode h
    simp [secure_open, is_path_allowed, mkRestrictedFileSystem, h]

/-- Witness for `open_write_classification`: instantiating the
read-path-irrelevance conjunct at concrete inputs. -/
theorem open_write_classification_witness :
    open_write_mode "r+" = true ∧
      secure_open (mkRestrictedFileSystem "/" [] ["/data"] false) "/" "/x" "r+" =
        secure_open (mkRestrictedFileSystem "/" ["/other"] ["/data"] false) "/" "/x" "r+" :=
  ⟨by decide,
   open_write_classification.2.1 "/" [] ["/other"] ["/data"] false "/x" "r+" (by decide)⟩


/-! ## C1: restoration after a full round trip -/

/-- C1 (code bug, evaluated at the failing input): activating the full
guard stack under the default profile and deactivating it restores
`builtins.__import__`, `builtins.open` and `socket.socket`, but leaves
the `Path.open`, `os.remove`, `os.unlink`, `urllib.request.urlopen` and
`HTTPConnection.__init__` patches installed: `RestrictedFileSystem.__exit__`
and `RestrictedNetwork.__exit__` restore only one of the interception
points they patched. -/
theorem round_trip_leaves_patches_installed :
    (guard_stack_round_trip DEFAULT_SECURITY_PROFILE "/"
          (initialAmbient (fun _ => none))).import_fn =
        (initialAmbient (fun _ => none)).import_fn
    ∧ (guard_stack_round_trip DEFAULT_SECURITY_PROFILE "/"
          (initialAmbient (fun _ => none))).open_fn =
        (initialAmbient (fun _ => none)).open_fn
    ∧ (guard_stack_round_trip DEFAULT_SECURITY_PROFILE "/"
          (initialAmbient (fun _ => none))).socket_fn =
        (initialAmbient (fun _ => none)).socket_fn
    ∧ (guard_stack_round_trip DEFAULT_SECURITY_PROFILE "/"
          (initialAmbient (fun _ => none))).path_open_fn ≠
        (initialAmbient (fun _ => none)).path_open_fn
    ∧ (guard_stack_round_trip DEFAULT_SECURITY_PROFILE "/"
          (initialAmbient (fun _ => none))).os_remove ≠
        (initialAmbient (fun _ => none)).os_remove
    ∧ (guard_stack_round_trip DEFAULT_SECURITY_PROFILE "/"
          (initialAmbient (fun _ => none))).os_unlink ≠
        (initialAmbient (fun _ => none)).os_unlink
    ∧ (guard_stack_round_trip DEFAULT_SECURITY_PROFILE "/"
          (initialAmbient (fun _ => none))).urlopen_fn ≠
        (initialAmbient (fun _ => none)).urlopen_fn
    ∧ (guard_stack_round_trip DEFAULT_SECURITY_PROFILE "/"
          (initialAmbient (fun _ => none))).http_init_fn ≠
        (initialAmbient (fun _ => none)).http_init_fn := by
  decide

/-! ## C7: exact environment restoration -/

/-- C7 (confirmed): with `allow_access = false`, whatever the sandboxed
code did to the environment in between (modelled by an arbitrary
`tampered` mapping), deactivating the environment guard restores, key by
key, exactly the mapping saved at activation: `__exit__` clears the
environment and re-applies the saved copy, so the result is neither a
superset nor a cleared mapping but the original itself. -/
theorem environment_restoration_exact (env tampered : EnvMap) (k : String) :
    (envGuardExit (mkRestrictedEnvironment false)
        (envGuardEnter (mkRestrictedEnvironment false) (initialAmbient env)).1
        { (envGuardEnter (mkRestrictedEnvironment false) (initialAmbient env)).2 with
            environ := tampered }).environ k = env k := by
  simp only [mkRestrictedEnvironment, envGuardEnter, envGuardExit, initialAmbient,
    Bool.false_eq_true, if_false, dict_update, dict_clear]
  cases henv : env k <;> simp [henv]

/-! ## C8: deactivation in exact reverse order -/

/-- C8 (confirmed): in every run whose guards all activate (the script
exists, so activation is reached and always succeeds), the trace ends
with the deactivation of the four guards in exactly the reverse of the
activation order — environment, network, filesystem, import — with no
deactivation occurring earlier, and each guard is deactivated exactly
once; this holds whether the script returns, raises a violation, raises
any other error, or could not even be opened. -/
theorem deactivation_reverse_order (p : SecurityProfile) (cwd sp : String)
    (outcome : ScriptOutcome) :
    ∃ pre, (run_sandboxed_script p cwd sp true outcome).2 =
        pre ++ restriction_order.reverse.map RunEvent.exitGuard
      ∧ (∀ g, RunEvent.exitGuard g ∉ pre)
      ∧ (∀ g, ((run_sandboxed_script p cwd sp true outcome).2).count
          (RunEvent.exitGuard g) = 1) := by
  cases hop : secure_open (mkRestrictedFileSystem cwd p.read_paths p.write_paths
      p.allow_delete) cwd sp "r" with
  | error e =>
    have htr : (run_sandboxed_script p cwd sp true outcome).2 =
        restriction_order.map RunEvent.enterGuard ++
          restriction_order.reverse.map RunEvent.exitGuard := by
      simp [run_sandboxed_script, hop]
    refine ⟨restriction_order.map RunEvent.enterGuard, by rw [htr], ?_, ?_⟩
    · intro g
      cases g <;> decide
    · intro g
      rw [htr]
      cases g <;> decide
  | ok v =>
    have htr : (run_sandboxed_script p cwd sp true outcome).2 =
        (restriction_order.map RunEvent.enterGuard ++ [RunEvent.exec_script]) ++
          restriction_order.reverse.map RunEvent.exitGuard := by
      cases outcome <;> simp [run_sandboxed_script, hop]
    refine ⟨restriction_order.map RunEvent.enterGuard ++ [RunEvent.exec_script],
      by rw [htr], ?_, ?_⟩
    · intro g
      cases g <;> decide
    · intro g
      rw [htr]
      cases g <;> decide

/-! ## C9: an unreadable script is never executed -/

/-- C9 (confirmed): the script source is read through the guarded open
(in mode `r`) only after all guards are active, so whenever the profile's
`read_paths` do not cover the script's own path, `run_sandboxed_script`
surfaces a `SecurityError` and the script body is never executed. -/
theorem unreadable_script_never_executes (p : SecurityProfile) (cwd sp : String)
    (outcome : ScriptOutcome)
    (h : is_path_allowed (mkRestrictedFileSystem cwd p.read_paths p.write_paths
        p.allow_delete) cwd sp false = false) :
    (∃ msg, (run_sandboxed_script p cwd sp true outcome).1 = .security_error msg)
    ∧ RunEvent.exec_script ∉ (run_sandboxed_script p cwd sp true outcome).2 := by
  have hwm : open_write_mode "r" = false := rfl
  have hop : ∃ e, secure_open (mkRestrictedFileSystem cwd p.read_paths p.write_paths
      p.allow_delete) cwd sp "r" = .error e := by
    simp [secure_open, hwm, h]
  obtain ⟨e, hop⟩ := hop
  have htr : (run_sandboxed_script p cwd sp true outcome).2 =
      restriction_order.map RunEvent.enterGuard ++
        restriction_order.reverse.map RunEvent.exitGuard := by
    simp [run_sandboxed_script, hop]
  constructor
  · exact ⟨e.msg, by simp [run_sandboxed_script, hop]⟩
  · rw [htr]
    decide

/-- Witness for C9: under the conservative default profile (empty
`read_paths`) no script path is readable, the run raises a security
error, and the script never executes. -/
theorem unreadable_script_never_executes_witness :
    is_path_allowed (mkRestrictedFileSystem "/" DEFAULT_SECURITY_PROFILE.read_paths
        DEFAULT_SECURITY_PROFILE.write_paths DEFAULT_SECURITY_PROFILE.allow_delete)
        "/" "/work/script.py" false = false
    ∧ ((∃ msg, (run_sandboxed_script DEFAULT_SECURITY_PROFILE "/" "/work/script.py"
          true .returns).1 = .security_error msg)
      ∧ RunEvent.exec_script ∉ (run_sandboxed_script DEFAULT_SECURITY_PROFILE "/"
          "/work/script.py" true .returns).2) :=
  ⟨by decide,
   unreadable_script_never_executes DEFAULT_SECURITY_PROFILE "/" "/work/script.py"
     .returns (by decide)⟩


/-- Witness for `environment_restoration_exact` at a concrete
environment, a concrete tampered state and a concrete key. -/
theorem environment_restoration_exact_witness :
    (envGuardExit (mkRestrictedEnvironment false)
        (envGuardEnter (mkRestrictedEnvironment false)
          (initialAmbient (fun k => if k = "HOME" then some "/root" else none))).1
        { (envGuardEnter (mkRestrictedEnvironment false)
            (initialAmbient (fun k => if k = "HOME" then some "/root" else none))).2 with
            environ := fun _ => some "tampered" }).environ "HOME" =
      (fun k => if k = "HOME" then some "/root" else none) "HOME" :=
  environment_restoration_exact (fun k => if k = "HOME" then some "/root" else none)
    (fun _ => some "tampered") "HOME"

/-- Witness for `deactivation_reverse_order` at a concrete profile, path
and outcome. -/
theorem deactivation_reverse_order_witness :
    ∃ pre, (run_sandboxed_script DEFAULT_SECURITY_PROFILE "/" "/work/script.py"
          true .returns).2 =
        pre ++ restriction_order.reverse.map RunEvent.exitGuard
      ∧ (∀ g, RunEvent.exitGuard g ∉ pre)
      ∧ (∀ g, ((run_sandboxed_script DEFAULT_SECURITY_PROFILE "/" "/work/script.py"
          true .returns).2).count (RunEvent.exitGuard g) = 1) :=
  deactivation_reverse_order DEFAULT_SECURITY_PROFILE "/" "/work/script.py" .returns

end SandboxWrapper
